import Mathlib

/-!
Shallow embedding of `src/efficiency.py`.

The script defines two zero-argument procedures, `this` and `that`, each of
which prints a start line, calls `time.sleep` with a fixed delay (2 for
`this`, 3 for `that`), and prints a completion line.  The module-level code
then creates a `Thread` with target `this`, starts it, creates a `Thread`
with target `that`, and starts it; no `join` is ever called, and the threads
keep the default `daemon=False` setting.

Each procedure body is embedded as a list of primitive actions (`Act`);
the module-level launcher code as a list of launcher steps (`MainStep`).
Semantics are given by
  * `runUnit`  – the timed execution of a single unit, parameterised by a
    starting clock and a per-`sleep` scheduler-slack list (`time.sleep d`
    suspends for at least `d`);
  * `runExcept` – execution under a fallible output stream, where a failing
    print propagates as an error (the code installs no handler);
  * `Interleaving` – the possible merged stdout streams of two units
    running concurrently.
-/

/-- A primitive action of a unit procedure: `print` a line to stdout, or
`sleep` for a number of time-units (`time.sleep`). -/
inductive Act where
  | print (s : String)
  | sleep (d : Nat)
deriving DecidableEq

/-- Body of `def this()`: print `"Starting this..."`, `time.sleep(2)`,
print `"Did this!"`. -/
def this : List Act :=
  [Act.print ("Starting this..."), Act.sleep 2, Act.print ("Did this!")]

/-- Body of `def that()`: print `"Starting that..."`, `time.sleep(3)`,
print `"Did that!"`. -/
def that : List Act :=
  [Act.print ("Starting that..."), Act.sleep 3, Act.print ("Did that!")]

/-- The lines a unit writes to stdout, in program order. -/
def outputs (acts : List Act) : List String :=
  acts.filterMap fun a =>
    match a with
    | Act.print s => some s
    | Act.sleep _ => none

/-- Timed execution of one unit in isolation.  `t` is the current clock;
`slack` gives, for each successive `sleep`, the extra time the scheduler
adds on top of the requested delay (`time.sleep d` suspends for at least
`d`).  Returns the timestamped output lines and the final clock. -/
def runUnit : List Act → Nat → List Nat → List (Nat × String) × Nat
  | [], t, _ => ([], t)
  | Act.print s :: rest, t, slack =>
      let r := runUnit rest t slack
      ((t, s) :: r.1, r.2)
  | Act.sleep d :: rest, t, slack =>
      runUnit rest (t + d + slack.headD 0) slack.tail

/-- Execution of one unit against a fallible output stream: `f s = some e`
means writing line `s` fails with error `e`.  The unit installs no handler,
so the first failing write aborts the run with that error. -/
def runExcept : List Act → (String → Option String) → Except String (List String)
  | [], _ => Except.ok []
  | Act.print s :: rest, f =>
      match f s with
      | some e => Except.error e
      | none => (runExcept rest f).map (fun out => s :: out)
  | Act.sleep _ :: rest, f => runExcept rest f

/-- Merge relation: `Interleaving as bs cs` holds when `cs` is a merge of
`as` and `bs` preserving the internal order of each — the possible stdout
streams when two units run concurrently. -/
inductive Interleaving : List String → List String → List String → Prop where
  | nil : Interleaving [] [] []
  | left {a : String} {as bs cs : List String} :
      Interleaving as bs cs → Interleaving (a :: as) bs (a :: cs)
  | right {b : String} {as bs cs : List String} :
      Interleaving as bs cs → Interleaving as (b :: bs) (b :: cs)

/-- A possible full-run stdout stream of the script: any interleaving of
the two started units' outputs. -/
def Run (out : List String) : Prop :=
  Interleaving (outputs this) (outputs that) out

/-- One step of the module-level launcher code: create a thread with a
given id, target and daemon flag; start a thread; or join a thread. -/
inductive MainStep where
  | create (tid : Nat) (target : List Act) (daemon : Bool)
  | start (tid : Nat)
  | join (tid : Nat)
deriving DecidableEq

/-- The module-level code of `efficiency.py`:
`t1 = Thread(target=this)`, `t1.start()`,
`t2 = Thread(target=that)`, `t2.start()`.
`Thread(...)` without a `daemon` argument defaults to `daemon=False`. -/
def launcher : List MainStep :=
  [MainStep.create 1 this false, MainStep.start 1,
   MainStep.create 2 that false, MainStep.start 2]

/-- The `(tid, target, daemon)` triples of the threads a launcher creates. -/
def createdThreads (l : List MainStep) : List (Nat × List Act × Bool) :=
  l.filterMap fun s =>
    match s with
    | MainStep.create tid tgt dm => some (tid, tgt, dm)
    | _ => none

/-- The thread ids a launcher starts, in order. -/
def startedTids (l : List MainStep) : List Nat :=
  l.filterMap fun s =>
    match s with
    | MainStep.start tid => some tid
    | _ => none

/-- The thread ids a launcher joins (blocks on), in order. -/
def joinedTids (l : List MainStep) : List Nat :=
  l.filterMap fun s =>
    match s with
    | MainStep.join tid => some tid
    | _ => none

/-- The targets of the non-daemon threads a launcher creates.  CPython does
not terminate the process until every non-daemon thread has finished, so
these are exactly the units guaranteed to run to completion before exit. -/
def nonDaemonTargets (l : List MainStep) : List (List Act) :=
  l.filterMap fun s =>
    match s with
    | MainStep.create _ tgt false => some tgt
    | _ => none

/-- stdout streams observable over a whole process lifetime: since both
created threads are non-daemon, the interpreter waits for both, so the
stream at process exit is a complete interleaving of both units' outputs. -/
def CompleteRun (out : List String) : Prop :=
  Interleaving (outputs this) (outputs that) out

theorem Interleaving.length_eq {as bs cs : List String}
    (h : Interleaving as bs cs) : cs.length = as.length + bs.length := by
  induction h with
  | nil => rfl
  | left _ ih => simp [ih]; omega
  | right _ ih => simp [ih]; omega

theorem Interleaving.sublist_left {as bs cs : List String}
    (h : Interleaving as bs cs) : as.Sublist cs := by
  induction h with
  | nil => exact List.Sublist.refl []
  | left _ ih => exact ih.cons₂ _
  | right _ ih => exact ih.cons _

theorem Interleaving.sublist_right {as bs cs : List String}
    (h : Interleaving as bs cs) : bs.Sublist cs := by
  induction h with
  | nil => exact List.Sublist.refl []
  | left _ ih => exact ih.cons _
  | right _ ih => exact ih.cons₂ _

theorem Interleaving.perm_append {as bs cs : List String}
    (h : Interleaving as bs cs) : cs.Perm (as ++ bs) := by
  induction h with
  | nil => rfl
  | left _ ih => exact ih.cons _
  | right _ ih => exact (ih.cons _).trans List.perm_middle.symm

theorem Interleaving.count_eq {as bs cs : List String} (x : String)
    (h : Interleaving as bs cs) : cs.count x = as.count x + bs.count x := by
  rw [(h.perm_append).count_eq x, List.count_append]

/-- If `a` is followed by `b` somewhere in `l` and `b` occurs exactly once,
then the first occurrence of `a` is before the (unique) occurrence of `b`. -/
theorem indexOf_lt_of_pair_sublist {a b : String} :
    ∀ {l : List String}, List.Sublist [a, b] l → l.count b = 1 → a ≠ b →
      List.indexOf a l < List.indexOf b l := by
  intro l
  induction l with
  | nil => intro h; cases h
  | cons c l ih =>
    intro hsub hcount hne
    cases hsub with
    | cons₂ h₂ =>
        rw [List.indexOf_cons_self, List.indexOf_cons_ne _ hne]
        exact Nat.succ_pos _
    | cons _ h₁ =>
        have hbmem : b ∈ l := h₁.subset (by simp)
        by_cases hcb : c = b
        · subst hcb
          rw [List.count_cons_self] at hcount
          have h0 : l.count c = 0 := by omega
          exact absurd hbmem (List.count_eq_zero.mp h0)
        · have hcount' : l.count b = 1 := by
            rwa [List.count_cons_of_ne (fun h => hcb h.symm)] at hcount
          by_cases hca : c = a
          · subst hca
            rw [List.indexOf_cons_self, List.indexOf_cons_ne _ hcb]
            exact Nat.succ_pos _
          · rw [List.indexOf_cons_ne _ hca, List.indexOf_cons_ne _ hcb]
            exact Nat.succ_lt_succ (ih h₁ hcount' hne)

/-- A sample complete stdout stream: `this` and `that` each print their
start line, then `this` (shorter delay) completes, then `that`. -/
def exampleOut : List String :=
  ["Starting this...", "Starting that...", "Did this!", "Did that!"]

theorem exampleOut_run : Run exampleOut :=
  Interleaving.left (Interleaving.right (Interleaving.left
    (Interleaving.right Interleaving.nil)))

/-- C1: each unit performs exactly three steps in order — emit the start
marker, sleep exactly the configured delay (2 for `this`, 3 for `that`),
emit the completion marker — and nothing else: run from any clock `t` with
no scheduler slack, `this` emits exactly its two lines at times `t` and
`t + 2`, `that` at times `t` and `t + 3`. -/
theorem unit_three_steps (t : Nat) :
    this = [Act.print ("Starting this..."), Act.sleep 2, Act.print ("Did this!")] ∧
    that = [Act.print ("Starting that..."), Act.sleep 3, Act.print ("Did that!")] ∧
    runUnit this t [] = ([(t, "Starting this..."), (t + 2, "Did this!")], t + 2) ∧
    runUnit that t [] = ([(t, "Starting that..."), (t + 3, "Did that!")], t + 3) :=
  ⟨rfl, rfl, by simp [runUnit, this], by simp [runUnit, that]⟩

/-- C2: every full-run stdout stream has exactly four lines, contains each
unit's two lines in that unit's order (as a subsequence), and consists
precisely of the four expected lines. -/
theorem run_four_lines {out : List String} (h : Run out) :
    out.length = 4 ∧
    List.Sublist ["Starting this...", "Did this!"] out ∧
    List.Sublist ["Starting that...", "Did that!"] out ∧
    out.Perm ["Starting this...", "Did this!", "Starting that...", "Did that!"] := by
  have h' : Interleaving (outputs this) (outputs that) out := h
  refine ⟨?_, h'.sublist_left, h'.sublist_right, h'.perm_append⟩
  rw [h'.length_eq]; rfl

theorem run_four_lines_witness :
    exampleOut.length = 4 ∧
    List.Sublist ["Starting this...", "Did this!"] exampleOut ∧
    List.Sublist ["Starting that...", "Did that!"] exampleOut ∧
    exampleOut.Perm
      ["Starting this...", "Did this!", "Starting that...", "Did that!"] :=
  run_four_lines exampleOut_run

/-- C3: in every interleaving, each unit's completion marker is never
observed before its start marker: the first occurrence of the start line
precedes the (unique) occurrence of the completion line. -/
theorem completion_after_start {out : List String} (h : Run out) :
    List.indexOf ("Starting this...") out < List.indexOf ("Did this!") out ∧
    List.indexOf ("Starting that...") out < List.indexOf ("Did that!") out := by
  have h' : Interleaving (outputs this) (outputs that) out := h
  constructor
  · refine indexOf_lt_of_pair_sublist h'.sublist_left ?_ (by decide)
    rw [h'.count_eq]; rfl
  · refine indexOf_lt_of_pair_sublist h'.sublist_right ?_ (by decide)
    rw [h'.count_eq]; rfl

theorem completion_after_start_witness :
    List.indexOf ("Starting this...") exampleOut <
      List.indexOf ("Did this!") exampleOut ∧
    List.indexOf ("Starting that...") exampleOut <
      List.indexOf ("Did that!") exampleOut :=
  completion_after_start exampleOut_run

/-- C4: in every complete run, each unit's start marker appears exactly
once on stdout — no duplication and no omission. -/
theorem start_markers_once {out : List String} (h : Run out) :
    out.count ("Starting this...") = 1 ∧ out.count ("Starting that...") = 1 := by
  have h' : Interleaving (outputs this) (outputs that) out := h
  constructor <;> rw [h'.count_eq] <;> rfl

theorem start_markers_once_witness :
    exampleOut.count ("Starting this...") = 1 ∧
    exampleOut.count ("Starting that...") = 1 :=
  start_markers_once exampleOut_run

/-- C5: the launcher creates exactly two execution contexts, binding the
first to `this` and the second to `that` (both non-daemon), starts both of
them, and contains no join/await step, so it never blocks on either. -/
theorem launcher_contract :
    (createdThreads launcher).length = 2 ∧
    createdThreads launcher = [(1, this, false), (2, that, false)] ∧
    startedTids launcher = [1, 2] ∧
    joinedTids launcher = [] :=
  ⟨rfl, rfl, rfl, rfl⟩

/-- C6: a unit has no error conditions under normal operation — when every
write succeeds it finishes with exactly its two lines — while a failing
write is not handled and propagates as an error aborting the unit. -/
theorem unit_error_propagation (f : String → Option String) :
    ((∀ s, f s = none) →
      runExcept this f = Except.ok ["Starting this...", "Did this!"] ∧
      runExcept that f = Except.ok ["Starting that...", "Did that!"]) ∧
    (∀ e, f ("Starting this...") = some e → runExcept this f = Except.error e) ∧
    (∀ e, f ("Starting this...") = none → f ("Did this!") = some e →
      runExcept this f = Except.error e) ∧
    (∀ e, f ("Starting that...") = some e → runExcept that f = Except.error e) ∧
    (∀ e, f ("Starting that...") = none → f ("Did that!") = some e →
      runExcept that f = Except.error e) := by
  refine ⟨fun hok => ⟨?_, ?_⟩, fun e h1 => ?_, fun e h1 h2 => ?_,
    fun e h1 => ?_, fun e h1 h2 => ?_⟩ <;>
    simp [runExcept, this, that, Except.map, *]

theorem unit_error_propagation_witness :
    runExcept this (fun _ => none) =
      Except.ok ["Starting this...", "Did this!"] ∧
    runExcept this (fun s => if s = "Did this!" then some ("EPIPE") else none) =
      Except.error ("EPIPE") :=
  ⟨((unit_error_propagation (fun _ => none)).1 (fun _ => rfl)).1,
   (unit_error_propagation
      (fun s => if s = "Did this!" then some ("EPIPE") else none)).2.2.1 ("EPIPE")
      (by simp) (by simp)⟩

/-- C7: for each unit, the time between its start marker and its completion
marker is its configured delay plus the scheduler slack of its single
sleep: at least 2 time-units for `this` and at least 3 for `that`, and not
more than the delay plus that slack. -/
theorem delay_bounds (t : Nat) (slack : List Nat) :
    (∃ ts td, (runUnit this t slack).1 =
        [(ts, "Starting this..."), (td, "Did this!")] ∧
      td = ts + 2 + slack.headD 0 ∧ ts + 2 ≤ td) ∧
    (∃ ts td, (runUnit that t slack).1 =
        [(ts, "Starting that..."), (td, "Did that!")] ∧
      td = ts + 3 + slack.headD 0 ∧ ts + 3 ≤ td) := by
  refine ⟨⟨t, t + 2 + slack.headD 0, ?_, rfl, by omega⟩,
    ⟨t, t + 3 + slack.headD 0, ?_, rfl, by omega⟩⟩ <;>
    simp [runUnit, this, that]

/-- C8: in the launcher's own sequential order, the creation of the thread
bound to `this` precedes the creation of the thread bound to `that`, and
the start of the former precedes the start of the latter. -/
theorem launcher_start_order :
    List.findIdx (fun s => s == MainStep.create 1 this false) launcher <
      List.findIdx (fun s => s == MainStep.create 2 that false) launcher ∧
    List.findIdx (fun s => s == MainStep.start 1) launcher <
      List.findIdx (fun s => s == MainStep.start 2) launcher ∧
    List.findIdx (fun s => s == MainStep.create 2 that false) launcher <
      launcher.length ∧
    List.findIdx (fun s => s == MainStep.start 2) launcher <
      launcher.length := by
  refine ⟨?_, ?_, ?_, ?_⟩ <;> decide

/-- C9: both created threads carry the default non-daemon flag, so the
process does not exit until both units finish; hence every stream observed
at process exit contains all four lines (and nothing more). -/
theorem nondaemon_all_lines {out : List String} (h : CompleteRun out) :
    nonDaemonTargets launcher = [this, that] ∧
    out.length = 4 ∧
    "Starting this..." ∈ out ∧ "Did this!" ∈ out ∧
    "Starting that..." ∈ out ∧ "Did that!" ∈ out := by
  have h' : Interleaving (outputs this) (outputs that) out := h
  have hp := (h'.perm_append).symm
  refine ⟨rfl, by rw [h'.length_eq]; rfl, ?_, ?_, ?_, ?_⟩ <;>
    exact hp.subset (by simp [outputs, this, that])

theorem nondaemon_all_lines_witness :
    nonDaemonTargets launcher = [this, that] ∧
    exampleOut.length = 4 ∧
    "Starting this..." ∈ exampleOut ∧ "Did this!" ∈ exampleOut ∧
    "Starting that..." ∈ exampleOut ∧ "Did that!" ∈ exampleOut :=
  nondaemon_all_lines exampleOut_run

/-- C10: each unit's stdout is deterministic — whatever the starting clock
and whatever scheduler slack its sleep experiences, the sequence of lines
it emits is identical, namely its two fixed lines. -/
theorem unit_output_deterministic (t₁ t₂ : Nat) (sl₁ sl₂ : List Nat) :
    ((runUnit this t₁ sl₁).1.map Prod.snd =
        (runUnit this t₂ sl₂).1.map Prod.snd ∧
      (runUnit this t₁ sl₁).1.map Prod.snd = outputs this) ∧
    ((runUnit that t₁ sl₁).1.map Prod.snd =
        (runUnit that t₂ sl₂).1.map Prod.snd ∧
      (runUnit that t₁ sl₁).1.map Prod.snd = outputs that) :=
  ⟨⟨rfl, rfl⟩, ⟨rfl, rfl⟩⟩

theorem unit_three_steps_witness :
    runUnit this 0 [] = ([(0, "Starting this..."), (2, "Did this!")], 2) ∧
    runUnit that 0 [] = ([(0, "Starting that..."), (3, "Did that!")], 3) :=
  ⟨(unit_three_steps 0).2.2.1, (unit_three_steps 0).2.2.2⟩

theorem delay_bounds_witness :
    (∃ ts td, (runUnit this 0 [5]).1 =
        [(ts, "Starting this..."), (td, "Did this!")] ∧
      td = ts + 2 + ([5] : List Nat).headD 0 ∧ ts + 2 ≤ td) ∧
    (∃ ts td, (runUnit that 0 [5]).1 =
        [(ts, "Starting that..."), (td, "Did that!")] ∧
      td = ts + 3 + ([5] : List Nat).headD 0 ∧ ts + 3 ≤ td) :=
  delay_bounds 0 [5]

theorem unit_output_deterministic_witness :
    ((runUnit this 0 []).1.map Prod.snd =
        (runUnit this 7 [4]).1.map Prod.snd ∧
      (runUnit this 0 []).1.map Prod.snd = outputs this) ∧
    ((runUnit that 0 []).1.map Prod.snd =
        (runUnit that 7 [4]).1.map Prod.snd ∧
      (runUnit that 0 []).1.map Prod.snd = outputs that) :=
  unit_output_deterministic 0 7 [] [4]
